import Mathlib

/-!
Shallow embedding of the verification engine of `revisor` (src/revisor.go):
an HTTP request/response verifier against an OpenAPI v2 document.
Go strings are modelled as `List Char`, Go errors as an explicit chain
(`Err`), `nil`-able values as `Option`, and fallible calls as `Except`.
External collaborators (the JSON decoder `encoding/json` and the schema
validator `go-openapi/validate`) are abstracted into an environment record
of functions, since they are out of scope of the verification engine.
In-place mutation of the request/response body handle is modelled by
returning the updated request/response value alongside the verdict.
-/

namespace Revisor

/-- Go `string`, modelled as a list of characters. -/
abbrev GoStr : Type := List Char

/-- Go error chains: `errors.New msg` and `errors.Wrap cause msg`
(from github.com/pkg/errors). -/
inductive Err where
  | new (msg : String) : Err
  | wrap (msg : String) (cause : Err) : Err
deriving DecidableEq

/-- `strings.Trim(s, " ")`: drop all leading and trailing space characters. -/
def trimSpaces (s : GoStr) : GoStr :=
  ((List.dropWhile (fun c => c = ' ') s).reverse.dropWhile (fun c => c = ' ')).reverse

/-- Does `pat` occur at the start of `s`?  (Boolean, structural.) -/
def startsWithList : GoStr → GoStr → Bool
  | _, [] => true
  | [], _ :: _ => false
  | a :: as, b :: bs => a = b && startsWithList as bs

/-- Go `strings.Contains(s, pat)`: `pat` occurs as a contiguous substring of `s`. -/
def goContains : GoStr → GoStr → Bool
  | s, pat =>
    match s with
    | [] => startsWithList [] pat
    | _ :: rest => startsWithList s pat || goContains rest pat

/-- Placeholder for `spec.Schema`: the verification engine only tests schema
presence; schema contents are consumed by the external validator. -/
structure Schema where
  id : Nat
deriving DecidableEq

/-- Go `interface\x7b\x7d` value produced by a decoder. -/
inductive GoValue where
  | value (n : Nat) : GoValue
deriving DecidableEq

/-- External collaborators, out of scope of the engine:
`encoding/json.Unmarshal` and `validate.AgainstSchema`. -/
structure Env where
  jsonDecode : GoStr → Except Err GoValue
  validateAgainstSchema : Option Schema → GoValue → Option Err

/-- `spec.Parameter`: location (`in`), `required` flag, optional schema. -/
structure Parameter where
  paramIn : GoStr
  required : Bool
  schema : Option Schema
deriving DecidableEq

/-- `spec.Response`: holds an optional JSON schema. -/
structure Response where
  schema : Option Schema
deriving DecidableEq

/-- `spec.Responses`: status-code map plus optional `Default`. -/
structure Responses where
  default : Option Response
  statusCodeResponses : List (Int × Response)
deriving DecidableEq

/-- `spec.Operation`: own parameters, MIME lists and responses. -/
structure Operation where
  parameters : List Parameter
  consumes : List GoStr
  produces : List GoStr
  responses : Responses
deriving DecidableEq

/-- `spec.PathItem`: one optional operation per HTTP method slot,
plus path-level parameters. -/
structure PathItem where
  get : Option Operation
  put : Option Operation
  post : Option Operation
  delete : Option Operation
  options : Option Operation
  head : Option Operation
  patch : Option Operation
  parameters : List Parameter
deriving DecidableEq

/-- The `options` record of the verifier. -/
structure Options where
  strictContentType : Bool
  ignoreBasePath : Bool
deriving DecidableEq

/-- A one-shot body reader (`io.ReadCloser`): a fresh in-memory buffer,
an already-drained reader, or a reader that fails. -/
inductive BodyStream where
  | buffer (bytes : GoStr) : BodyStream
  | exhausted : BodyStream
  | failing (e : Err) : BodyStream
deriving DecidableEq

/-- `ioutil.ReadAll` on a body stream: draining a buffer yields its bytes and
leaves the stream exhausted; an exhausted stream yields nothing. -/
def readAll : BodyStream → Except Err (GoStr × BodyStream)
  | .buffer bs => .ok (bs, .exhausted)
  | .exhausted => .ok ([], .exhausted)
  | .failing e => .error e

/-- `http.Request`: method, URL, `Content-Type` header, `nil`-able body. -/
structure Request where
  method : String
  url : String
  contentTypeHeader : GoStr
  body : Option BodyStream

/-- `http.Response`: status code, `Content-Type` header, `nil`-able body. -/
structure HttpResponse where
  statusCode : Int
  contentTypeHeader : GoStr
  body : Option BodyStream

/-- `apiVerifier`: options, the expanded document's base data
(document-wide consumes/produces and the paths table), and the mapper,
abstracted as a function from method and URL to a matched path template. -/
structure ApiVerifier where
  opts : Options
  specConsumes : List GoStr
  specProduces : List GoStr
  paths : List (String × PathItem)
  mapRequest : String → String → Option String

/-- `readRequestBody` (src/revisor.go:396): a `nil` body yields an empty
slice; otherwise drain the body fully and reinstall a fresh in-memory
reader over the same bytes on the request. -/
def readRequestBody (r : Request) : Except Err (GoStr × Request) :=
  match r.body with
  | none => .ok ([], r)
  | some stream =>
    match readAll stream with
    | .error e => .error (.wrap "error reading request body" e)
    | .ok (body, _) => .ok (body, { r with body := some (.buffer body) })

/-- `readResponseBody` (src/revisor.go:411): same contract for responses. -/
def readResponseBody (r : HttpResponse) : Except Err (GoStr × HttpResponse) :=
  match r.body with
  | none => .ok ([], r)
  | some stream =>
    match readAll stream with
    | .error e => .error (.wrap "error reading response body" e)
    | .ok (body, _) => .ok (body, { r with body := some (.buffer body) })

/-- `checkIfSchemaOrBodyIsEmpty` (src/revisor.go:261). -/
def checkIfSchemaOrBodyIsEmpty (schema : Option Schema) (bodyLen : Nat) : Option Err :=
  if schema = none ∧ bodyLen ≠ 0 then
    some (.new "schema is not defined")
  else if schema ≠ none ∧ bodyLen = 0 then
    some (.new "body is empty")
  else
    none

/-- The `for` loop of `matchContentType`: the first declared entry whose
trimmed form matches (exactly in strict mode, as a substring of the header
in relaxed mode) makes the loop return the trimmed header value `matched`. -/
def matchLoop (strict : Bool) (matched : GoStr) : List GoStr → Option GoStr
  | [] => none
  | typeStr :: rest =>
    let target := trimSpaces typeStr
    if strict then
      if matched = target then some matched else matchLoop strict matched rest
    else
      if goContains matched target then some matched else matchLoop strict matched rest

/-- `matchContentType` (src/revisor.go:194). -/
def matchContentType (strict : Bool) (contentType : GoStr) (allowed : List GoStr) :
    Except Err GoStr :=
  if allowed.length = 0 ∧ strict = true then
    .error (.new "array of allowed content types is empty")
  else
    match matchLoop strict (trimSpaces contentType) allowed with
    | some m => .ok m
    | none => .error (.new ( "Content-Type is not configured: " ++ String.mk contentType))

/-- `getBodyParameter` (src/revisor.go:216): first parameter located in the body. -/
def getBodyParameter : List Parameter → Option Parameter
  | [] => none
  | parameter :: rest =>
    if parameter.paramIn = "body".data then some parameter else getBodyParameter rest

/-- `getPathDef` (src/revisor.go:225): map the request to a template, then
look the template up in the document's paths. -/
def getPathDef (a : ApiVerifier) (req : Request) : Except Err PathItem :=
  match a.mapRequest req.method req.url with
  | none => .error (.new "no path template matches current request")
  | some pathTmpl =>
    match a.paths.lookup pathTmpl with
    | none => .error (.new "no path item definition found for path template")
    | some pathDef => .ok pathDef

/-- `operationByMethod` (src/revisor.go:305). -/
def operationByMethod (method : String) (pathDef : PathItem) : Except Err Operation :=
  let operation : Option Operation :=
    if method = "GET" then pathDef.get
    else if method = "PUT" then pathDef.put
    else if method = "POST" then pathDef.post
    else if method = "DELETE" then pathDef.delete
    else if method = "OPTIONS" then pathDef.options
    else if method = "HEAD" then pathDef.head
    else if method = "PATCH" then pathDef.patch
    else none
  match operation with
  | none => .error (.new ( "no operation configured for method: " ++ method))
  | some op => .ok op

/-- `responseByStatus` (src/revisor.go:294): start from `Default`, overridden
by an exact status-code entry; fail when neither exists. -/
def responseByStatus (status : Int) (operation : Operation) : Except Err Response :=
  let response := operation.responses.default
  let response :=
    match operation.responses.statusCodeResponses.lookup status with
    | some def_ => some def_
    | none => response
  match response with
  | none => .error (.new "neither default nor response schema for current status code is defined")
  | some r => .ok r

/-- `getRequestDef` (src/revisor.go:173): body parameter with
operation-to-path-item fall-through, and the effective consumes list. -/
def getRequestDef (a : ApiVerifier) (req : Request) :
    Except Err (Option Parameter × List GoStr) :=
  match getPathDef a req with
  | .error e => .error (.wrap "failed to get pathItem defintiion" e)
  | .ok pathDef =>
    match operationByMethod req.method pathDef with
    | .error e => .error (.wrap "failed to get operation defintiion" e)
    | .ok operation =>
      let reqBodyParameter :=
        match getBodyParameter operation.parameters with
        | some p => some p
        | none => getBodyParameter pathDef.parameters
      let consumes := if operation.consumes.length = 0 then a.specConsumes else operation.consumes
      .ok (reqBodyParameter, consumes)

/-- `getResponseDef` (src/revisor.go:238): response definition selected by
status, and the effective produces list. -/
def getResponseDef (a : ApiVerifier) (req : Request) (res : HttpResponse) :
    Except Err (Response × List GoStr) :=
  match getPathDef a req with
  | .error e => .error (.wrap "failed to get path item defintiion" e)
  | .ok pathDef =>
    match operationByMethod req.method pathDef with
    | .error e => .error (.wrap "response definition not configured" e)
    | .ok operation =>
      match responseByStatus res.statusCode operation with
      | .error e => .error (.wrap "response not valid" e)
      | .ok response =>
        let produces := if operation.produces.length = 0 then a.specProduces else operation.produces
        .ok (response, produces)

/-- `getDecoder` (src/revisor.go:423): the JSON decoder whenever the
content-type string contains `json`, else a decoder that always fails. -/
def getDecoder (env : Env) (contentType : GoStr) : GoStr → Except Err GoValue :=
  if goContains contentType "json".data then env.jsonDecode
  else fun _ => .error (.new ( "failed to decode as " ++ String.mk contentType))

/-- `decodeBody` (src/revisor.go:384). -/
def decodeBody (env : Env) (contentType : GoStr) (body : GoStr) : Except Err GoValue :=
  match getDecoder env contentType body with
  | .error e => .error (.wrap "failed to decode" e)
  | .ok decoded => .ok decoded

/-- `verifyRequest` (src/revisor.go:110).  The mutated request (its body
handle replaced by a replayable buffer) is returned alongside the verdict. -/
def verifyRequest (env : Env) (a : ApiVerifier) (req : Request) : Option Err × Request :=
  match getRequestDef a req with
  | .error e => (some e, req)
  | .ok (requestDef, consumes) =>
    match readRequestBody req with
    | .error e => (some (.wrap "failed to verify request" e), req)
    | .ok (body, req') =>
      match requestDef with
      | some rdef =>
        let emptinessErr :=
          if rdef.required then checkIfSchemaOrBodyIsEmpty rdef.schema body.length else none
        match emptinessErr with
        | some e => (some (.wrap "either defined schema or request body is empty" e), req')
        | none =>
          match matchContentType a.opts.strictContentType req.contentTypeHeader consumes with
          | .error e => (some e, req')
          | .ok contentType =>
            match decodeBody env contentType body with
            | .error e => (some (.wrap "failed to decode request" e), req')
            | .ok decoded => (env.validateAgainstSchema rdef.schema decoded, req')
      | none =>
        if body.length ≠ 0 then
          (some (.new "failed to verify request: definition is not defined but body is not empty"), req')
        else
          (none, req')

/-- `verifyResponse` (src/revisor.go:145).  The mutated response is returned
alongside the verdict. -/
def verifyResponse (env : Env) (a : ApiVerifier) (res : HttpResponse) (req : Request) :
    Option Err × HttpResponse :=
  match getResponseDef a req res with
  | .error e => (some e, res)
  | .ok (response, produces) =>
    match readResponseBody res with
    | .error e => (some (.wrap "response not valid" e), res)
    | .ok (body, res') =>
      match checkIfSchemaOrBodyIsEmpty response.schema body.length with
      | some e => (some (.wrap "either defined schema or response body is empty" e), res')
      | none =>
        match matchContentType a.opts.strictContentType res.contentTypeHeader produces with
        | .error e => (some e, res')
        | .ok contentType =>
          match decodeBody env contentType body with
          | .error e => (some (.wrap "failed to decode response" e), res')
          | .ok decoded => (env.validateAgainstSchema response.schema decoded, res')

/-- `verifyRequestAndReponse` (src/revisor.go:271): the combined verifier.
The request report is built first (with the status-aware message), then
overwritten by the response report when the response verification fails.
The mutated response and request are returned alongside the verdict. -/
def verifyRequestAndReponse (env : Env) (a : ApiVerifier) (res : HttpResponse) (req : Request) :
    Option Err × HttpResponse × Request :=
  let step := verifyRequest env a req
  let report : Option Err :=
    match step.1 with
    | some err =>
      if res.statusCode < 400 then
        some (.wrap "request validation failed but response status code is ok" err)
      else
        some (.wrap "request validation failed" err)
    | none => none
  let stepRes := verifyResponse env a res step.2
  let report2 : Option Err :=
    match stepRes.1 with
    | some err => some (.wrap "response validation failed" err)
    | none => report
  (report2, stepRes.2, step.2)

/-- Spec-side matching condition for one declared MIME entry (§4.4 of the
specification): strict mode is case-sensitive exact equality of the trimmed
entry with the trimmed header, relaxed mode is the trimmed entry occurring
as a substring of the trimmed header. -/
def entryMatches (strict : Bool) (matched typeStr : GoStr) : Prop :=
  if strict = true then trimSpaces typeStr = matched
  else goContains matched (trimSpaces typeStr) = true

instance (strict : Bool) (m t : GoStr) : Decidable (entryMatches strict m t) :=
  match strict with
  | true => inferInstanceAs (Decidable (trimSpaces t = m))
  | false => inferInstanceAs (Decidable (goContains m (trimSpaces t) = true))

/-- A permissive environment: JSON decoding and schema validation succeed. -/
def envTriv : Env := ⟨ fun _ => .ok (.value 0), fun _ _ => none⟩

/-- A required body parameter without a schema. -/
def pC2 : Parameter := ⟨ "body".data, true, none⟩

/-- An operation carrying the required schemaless body parameter. -/
def opC2 : Operation := ⟨ [pC2], [ "application/json".data], [], ⟨ none, []⟩⟩

/-- A path item exposing `opC2` under PUT. -/
def itemC2 : PathItem := ⟨ none, some opC2, none, none, none, none, none, []⟩

/-- A strict verifier over the single-path document of `itemC2`. -/
def apiC2 : ApiVerifier :=
  ⟨ ⟨ true, false⟩, [], [], [ ( "/user/{username}", itemC2)],
    fun m u => if m = "PUT" ∧ u = "/v2/user/testuser" then some "/user/{username}" else none⟩

/-- A PUT request with an empty body and a non-JSON content-type header. -/
def reqC2 : Request := ⟨ "PUT", "/v2/user/testuser", "text/plain".data, some (.buffer [])⟩

/-- An operation with no parameters, JSON in and out, and a default
response definition carrying a schema. -/
def opW : Operation :=
  ⟨ [], [ "application/json".data], [ "application/json".data],
    ⟨ some ⟨ some ⟨ 0⟩⟩, []⟩⟩

/-- A path item exposing `opW` under PUT. -/
def itemW : PathItem := ⟨ none, some opW, none, none, none, none, none, []⟩

/-- A strict verifier over the single-path document of `itemW`. -/
def apiW : ApiVerifier :=
  ⟨ ⟨ true, false⟩, [], [], [ ( "/w", itemW)],
    fun m u => if m = "PUT" ∧ u = "/w" then some "/w" else none⟩

/-- A PUT request with a non-empty body against an operation that declares
no body parameter. -/
def reqW : Request := ⟨ "PUT", "/w", "application/json".data, some (.buffer "x".data)⟩

/-- The same request with an empty body. -/
def reqW0 : Request := ⟨ "PUT", "/w", "application/json".data, some (.buffer [])⟩

/-- A 200 JSON response with a non-empty body. -/
def resW : HttpResponse := ⟨ 200, "application/json".data, some (.buffer "y".data)⟩

/-- Every list starts with the empty pattern. -/
theorem startsWithList_nil (s : GoStr) : startsWithList s [] = true := by
  cases s <;> rfl

/-- A string contains itself as a substring. -/
theorem goContains_self (s : GoStr) : goContains s s = true := by
  have hsw : ∀ t : GoStr, startsWithList t t = true := by
    intro t
    induction t with
    | nil => rfl
    | cons a as ih => simp [startsWithList, ih]
  cases s with
  | nil => rfl
  | cons a as => simp [goContains, hsw]

/-- The matching loop returns the trimmed header exactly when some declared
entry matches it under the current policy. -/
theorem matchLoop_eq (strict : Bool) (m : GoStr) (l : List GoStr) :
    matchLoop strict m l =
      if l.any (fun t => decide (entryMatches strict m t)) = true then some m else none := by
  induction l with
  | nil => cases strict <;> rfl
  | cons t rest ih =>
    cases strict with
    | false =>
      by_cases h : goContains m (trimSpaces t) = true
      · simp [matchLoop, h, entryMatches]
      · simp [matchLoop, h, entryMatches, ih]
    | true =>
      by_cases h : m = trimSpaces t
      · simp [matchLoop, h, entryMatches]
      · have h2 : ¬ trimSpaces t = m := fun hh => h hh.symm
        simp [matchLoop, h, h2, entryMatches, ih]

/-- `matchContentType` succeeds exactly when some declared entry matches the
trimmed header, and then returns the trimmed header itself. -/
theorem matchContentType_ok_iff (strict : Bool) (ct : GoStr) (allowed : List GoStr)
    (m : GoStr) :
    matchContentType strict ct allowed = .ok m ↔
      (m = trimSpaces ct ∧ ∃ t ∈ allowed, entryMatches strict (trimSpaces ct) t) := by
  unfold matchContentType
  rw [matchLoop_eq]
  by_cases g : allowed.length = 0 ∧ strict = true
  · obtain ⟨g1, g2⟩ := g
    have hnil : allowed = [] := List.length_eq_zero.mp g1
    subst hnil
    simp [g2]
  · rw [if_neg g]
    by_cases h : allowed.any (fun t => decide (entryMatches strict (trimSpaces ct) t)) = true
    · rw [if_pos h]
      simp only [List.any_eq_true, decide_eq_true_eq] at h
      constructor
      · intro hok
        refine ⟨?_, h⟩
        cases hok
        rfl
      · rintro ⟨hm, _⟩
        rw [hm]
    · rw [if_neg h]
      simp only [List.any_eq_true, decide_eq_true_eq, not_exists] at h
      push_neg at h
      constructor
      · intro hok
        exact absurd hok (by simp)
      · rintro ⟨hm, t, ht, hmt⟩
        exact absurd hmt (h t ht)

/-- `getBodyParameter` is the first parameter whose location is `body`. -/
theorem getBodyParameter_eq_find (params : List Parameter) :
    getBodyParameter params =
      params.find? (fun p => decide (p.paramIn = "body".data)) := by
  induction params with
  | nil => rfl
  | cons p rest ih =>
    by_cases h : p.paramIn = "body".data
    · simp [getBodyParameter, List.find?, h]
    · simp [getBodyParameter, List.find?, h, ih]

/-- Claim C3: the emptiness check on a schema `S` and a body length `n`
fails with the message `schema is not defined` exactly when `S` is absent
and `n` is nonzero, fails with `body is empty` exactly when `S` is present
and `n` is zero, and succeeds in the two remaining cases (both present,
both absent). -/
theorem checkIfSchemaOrBodyIsEmpty_triad (S : Option Schema) (n : Nat) :
    (checkIfSchemaOrBodyIsEmpty S n = some (.new "schema is not defined") ↔
       (S = none ∧ n ≠ 0)) ∧
    (checkIfSchemaOrBodyIsEmpty S n = some (.new "body is empty") ↔
       (S ≠ none ∧ n = 0)) ∧
    (checkIfSchemaOrBodyIsEmpty S n = none ↔
       ((S ≠ none ∧ n ≠ 0) ∨ (S = none ∧ n = 0))) := by
  have hmsg : ("schema is not defined" : String) ≠ "body is empty" := by decide
  rcases S with _ | s <;> rcases n with _ | k <;>
    simp [checkIfSchemaOrBodyIsEmpty, Err.new.injEq, hmsg, hmsg.symm]

/-- Claim C6: the response selector returns the response mapped to the exact
status code when one exists, otherwise the operation's default response when
one exists, and otherwise fails with the no-schema-for-status error. -/
theorem responseByStatus_selects (status : Int) (op : Operation) :
    responseByStatus status op =
      (match op.responses.statusCodeResponses.lookup status with
       | some r => .ok r
       | none =>
         match op.responses.default with
         | some d => .ok d
         | none =>
           .error (.new
             "neither default nor response schema for current status code is defined")) := by
  unfold responseByStatus
  rcases hl : op.responses.statusCodeResponses.lookup status with _ | r <;>
    rcases hd : op.responses.default with _ | d <;> simp [hl, hd]

/-- Claim C4: the content-type matcher fails when the declared list is empty
and strict mode is on; it accepts (returning the trimmed header) exactly when
some declared entry, trimmed, matches the trimmed header — case-sensitive
equality in strict mode, substring occurrence in relaxed mode; and when no
entry matches it fails with an error carrying the offending header value. -/
theorem matchContentType_characterization (strict : Bool) (ct : GoStr)
    (allowed : List GoStr) :
    (allowed = [] ∧ strict = true →
       matchContentType strict ct allowed =
         .error (.new "array of allowed content types is empty")) ∧
    (∀ m : GoStr,
       matchContentType strict ct allowed = .ok m ↔
         (m = trimSpaces ct ∧ ∃ t ∈ allowed, entryMatches strict (trimSpaces ct) t)) ∧
    (¬(allowed = [] ∧ strict = true) →
       (∀ t ∈ allowed, ¬ entryMatches strict (trimSpaces ct) t) →
       matchContentType strict ct allowed =
         .error (.new ( "Content-Type is not configured: " ++ String.mk ct))) := by
  refine ⟨?_, fun m => matchContentType_ok_iff strict ct allowed m, ?_⟩
  · rintro ⟨h1, h2⟩
    subst h1
    simp [matchContentType, h2]
  · intro hg hnone
    have hg' : ¬(allowed.length = 0 ∧ strict = true) := by
      intro ⟨h1, h2⟩
      exact hg ⟨List.length_eq_zero.mp h1, h2⟩
    unfold matchContentType
    rw [if_neg hg', matchLoop_eq]
    have hany : allowed.any (fun t => decide (entryMatches strict (trimSpaces ct) t)) = false := by
      simp only [List.any_eq_false, decide_eq_true_eq]
      exact hnone
    rw [hany]
    simp

/-- Claim C9: whenever strict mode accepts a header against a declared MIME
list, relaxed mode accepts it as well (with the same returned media type). -/
theorem matchContentType_strict_le_relaxed (ct : GoStr) (allowed : List GoStr)
    (m : GoStr) (h : matchContentType true ct allowed = .ok m) :
    matchContentType false ct allowed = .ok m := by
  rw [matchContentType_ok_iff] at h ⊢
  obtain ⟨hm, t, ht, hmt⟩ := h
  refine ⟨hm, t, ht, ?_⟩
  have heq : trimSpaces t = trimSpaces ct := hmt
  show goContains (trimSpaces ct) (trimSpaces t) = true
  rw [heq]
  exact goContains_self _

/-- Claim C9 witness: a concrete strict acceptance, propagated to relaxed mode. -/
theorem matchContentType_strict_le_relaxed_witness :
    matchContentType true "application/json".data [ "application/json".data] =
      .ok "application/json".data ∧
    matchContentType false "application/json".data [ "application/json".data] =
      .ok "application/json".data :=
  ⟨rfl, matchContentType_strict_le_relaxed _ _ _ rfl⟩

/-- Claim C10: a successful content-type match returns the caller's header
value trimmed (never the declared entry), and the decoder applied to that
value is selected by whether it contains the substring `json`: a
json-containing type is decoded by the JSON decoder, any other type fails
with the no-decoder error. -/
theorem matchContentType_returns_header_and_decoder_dispatch :
    (∀ (strict : Bool) (ct : GoStr) (allowed : List GoStr) (m : GoStr),
       matchContentType strict ct allowed = .ok m → m = trimSpaces ct) ∧
    (∀ (env : Env) (ct body : GoStr), goContains ct "json".data = true →
       decodeBody env ct body =
         (match env.jsonDecode body with
          | .error e => .error (.wrap "failed to decode" e)
          | .ok v => .ok v)) ∧
    (∀ (env : Env) (ct body : GoStr), goContains ct "json".data = false →
       decodeBody env ct body =
         .error (.wrap "failed to decode" (.new ( "failed to decode as " ++ String.mk ct)))) := by
  refine ⟨?_, ?_, ?_⟩
  · intro strict ct allowed m h
    exact ((matchContentType_ok_iff strict ct allowed m).mp h).1
  · intro env ct body h
    unfold decodeBody getDecoder
    rw [if_pos h]
  · intro env ct body h
    unfold decodeBody getDecoder
    rw [if_neg (by simp [h])]

/-- Claim C10 witness: relaxed matching of a parameterized media type against
a bare declared entry returns the full trimmed header, which still selects
the JSON decoder. -/
theorem matchContentType_returns_header_witness :
    matchContentType false "application/json; charset=utf-8".data
        [ "application/json".data] =
      .ok "application/json; charset=utf-8".data ∧
    ("application/json; charset=utf-8".data : GoStr) =
      trimSpaces "application/json; charset=utf-8".data ∧
    goContains "application/json; charset=utf-8".data "json".data = true :=
  ⟨rfl,
   matchContentType_returns_header_and_decoder_dispatch.1 false
     "application/json; charset=utf-8".data [ "application/json".data]
     "application/json; charset=utf-8".data rfl,
   rfl⟩

/-- Claim C4 witness: a header matching no declared entry is rejected with an
error carrying the offending header value. -/
theorem matchContentType_characterization_witness :
    ¬(([ "application/json".data] : List GoStr) = [] ∧ true = true) ∧
    (∀ t ∈ ([ "application/json".data] : List GoStr),
       ¬ entryMatches true (trimSpaces "text/plain".data) t) ∧
    matchContentType true "text/plain".data [ "application/json".data] =
      .error (.new ( "Content-Type is not configured: " ++ String.mk "text/plain".data)) :=
  ⟨by simp, by decide,
   (matchContentType_characterization true "text/plain".data
       [ "application/json".data]).2.2 (by simp) (by decide)⟩

/-- Claim C1: in the combined verifier, both verifications succeeding yields
no error; a response-side failure is always the surfaced error (wrapped as a
response validation failure), superseding any request-side failure; and when
only the request side fails while the response status code is below 400, the
surfaced error reports that request validation failed but the response
status code is ok. -/
theorem verifyRequestAndReponse_verdict (env : Env) (a : ApiVerifier)
    (res : HttpResponse) (req : Request) :
    ((verifyRequest env a req).1 = none ∧
       (verifyResponse env a res (verifyRequest env a req).2).1 = none →
       (verifyRequestAndReponse env a res req).1 = none) ∧
    (∀ e : Err, (verifyResponse env a res (verifyRequest env a req).2).1 = some e →
       (verifyRequestAndReponse env a res req).1 =
         some (.wrap "response validation failed" e)) ∧
    (∀ e : Err, (verifyRequest env a req).1 = some e →
       (verifyResponse env a res (verifyRequest env a req).2).1 = none →
       res.statusCode < 400 →
       (verifyRequestAndReponse env a res req).1 =
         some (.wrap "request validation failed but response status code is ok" e)) := by
  unfold verifyRequestAndReponse
  refine ⟨?_, ?_, ?_⟩
  · rintro ⟨h1, h2⟩
    simp [h1, h2]
  · intro e h
    simp [h]
  · intro e h1 h2 hlt
    simp [h1, h2, hlt]

/-- Claim C1 witness: a request failure combined with a passing response at
status 200 surfaces the status-code-is-ok report. -/
theorem verifyRequestAndReponse_verdict_witness :
    (verifyRequest envTriv apiW reqW).1 =
      some (.new "failed to verify request: definition is not defined but body is not empty") ∧
    (verifyResponse envTriv apiW resW (verifyRequest envTriv apiW reqW).2).1 = none ∧
    resW.statusCode < 400 ∧
    (verifyRequestAndReponse envTriv apiW resW reqW).1 =
      some (.wrap "request validation failed but response status code is ok"
        (.new "failed to verify request: definition is not defined but body is not empty")) :=
  ⟨rfl, rfl, by decide,
   (verifyRequestAndReponse_verdict envTriv apiW resW reqW).2.2
     (.new "failed to verify request: definition is not defined but body is not empty")
     rfl rfl (by decide)⟩

/-- Claim C2 counterexample: a defined, required body parameter without a
schema and an empty request body pass the emptiness check (both sides empty),
yet verifyRequest does not return success: it continues to content-type
matching, which rejects the text/plain header. -/
theorem verifyRequest_both_empty_not_success :
    getRequestDef apiC2 reqC2 = .ok (some pC2, [ "application/json".data]) ∧
    pC2.required = true ∧
    pC2.schema = none ∧
    readRequestBody reqC2 = .ok ([], { reqC2 with body := some (.buffer []) }) ∧
    checkIfSchemaOrBodyIsEmpty pC2.schema ([] : GoStr).length = none ∧
    (verifyRequest envTriv apiC2 reqC2).1 =
      some (.new "Content-Type is not configured: text/plain") :=
  ⟨rfl, rfl, rfl, rfl, rfl, rfl⟩

/-- Claim C2 (amended): for a request whose resolved body parameter is
defined and required, the emptiness rule is applied to the parameter's
schema and the body length; when that check passes (including the permitted
case of both schema and body absent/empty), verifyRequest does not return
success immediately but proceeds to content-type matching, decoding, and
schema validation, returning their verdict. -/
theorem verifyRequest_required_emptiness_pass_continues (env : Env) (a : ApiVerifier)
    (req : Request) (rdef : Parameter) (consumes : List GoStr) (body : GoStr)
    (req' : Request)
    (h1 : getRequestDef a req = .ok (some rdef, consumes))
    (h2 : readRequestBody req = .ok (body, req'))
    (h3 : rdef.required = true)
    (h4 : checkIfSchemaOrBodyIsEmpty rdef.schema body.length = none) :
    (verifyRequest env a req).1 =
      (match matchContentType a.opts.strictContentType req.contentTypeHeader consumes with
       | .error e => some e
       | .ok contentType =>
         match decodeBody env contentType body with
         | .error e => some (.wrap "failed to decode request" e)
         | .ok decoded => env.validateAgainstSchema rdef.schema decoded) := by
  unfold verifyRequest
  rw [h1, h2]
  simp only [h3, if_true, h4]
  rcases hm : matchContentType a.opts.strictContentType req.contentTypeHeader consumes with
    e | contentType
  · simp [hm]
  · rcases hd : decodeBody env contentType body with e | decoded <;> simp [hm, hd]

/-- Claim C2 witness: the amended behavior at the concrete input — after the
emptiness check passes with both sides empty, the content-type error is
returned. -/
theorem verifyRequest_required_emptiness_pass_continues_witness :
    getRequestDef apiC2 reqC2 = .ok (some pC2, [ "application/json".data]) ∧
    readRequestBody reqC2 = .ok ([], { reqC2 with body := some (.buffer []) }) ∧
    pC2.required = true ∧
    checkIfSchemaOrBodyIsEmpty pC2.schema ([] : GoStr).length = none ∧
    (verifyRequest envTriv apiC2 reqC2).1 =
      some (.new "Content-Type is not configured: text/plain") :=
  ⟨rfl, rfl, rfl, rfl,
   verifyRequest_required_emptiness_pass_continues envTriv apiC2 reqC2 pC2
     [ "application/json".data] [] { reqC2 with body := some (.buffer []) }
     rfl rfl rfl rfl⟩

/-- Claim C7: once the path item and operation are resolved, the effective
consumes list is the operation's own list when non-empty and the
document-wide list otherwise; the body parameter is the first parameter
located in the body among the operation's parameters, falling back to the
path item's parameters, or none; and symmetrically the effective produces
list on the response side. -/
theorem effective_mime_and_body_parameter (a : ApiVerifier) (req : Request)
    (res : HttpResponse) (pd : PathItem) (op : Operation)
    (h1 : getPathDef a req = .ok pd)
    (h2 : operationByMethod req.method pd = .ok op) :
    (getRequestDef a req = .ok
       ((match op.parameters.find? (fun p => decide (p.paramIn = "body".data)) with
         | some p => some p
         | none => pd.parameters.find? (fun p => decide (p.paramIn = "body".data))),
        if op.consumes = [] then a.specConsumes else op.consumes)) ∧
    (∀ r : Response, responseByStatus res.statusCode op = .ok r →
       getResponseDef a req res =
         .ok (r, if op.produces = [] then a.specProduces else op.produces)) := by
  constructor
  · simp [getRequestDef, h1, h2, getBodyParameter_eq_find, List.length_eq_zero]
  · intro r hr
    simp [getResponseDef, h1, h2, hr, List.length_eq_zero]

/-- Claim C7 witness: concrete resolution with no body parameter anywhere and
non-empty operation-level MIME lists. -/
theorem effective_mime_and_body_parameter_witness :
    getPathDef apiW reqW = .ok itemW ∧
    operationByMethod reqW.method itemW = .ok opW ∧
    getRequestDef apiW reqW = .ok (none, [ "application/json".data]) ∧
    responseByStatus resW.statusCode opW = .ok ⟨ some ⟨ 0⟩⟩ ∧
    getResponseDef apiW reqW resW = .ok (⟨ some ⟨ 0⟩⟩, [ "application/json".data]) :=
  ⟨rfl, rfl,
   (effective_mime_and_body_parameter apiW reqW resW itemW opW rfl rfl).1,
   rfl,
   (effective_mime_and_body_parameter apiW reqW resW itemW opW rfl rfl).2 ⟨ some ⟨ 0⟩⟩ rfl⟩

/-- Claim C8: when the matched operation defines no body parameter,
verifyRequest fails with the definition-not-defined error exactly when the
read body is non-empty, and succeeds when it is empty. -/
theorem verifyRequest_no_body_parameter (env : Env) (a : ApiVerifier) (req : Request)
    (consumes : List GoStr) (body : GoStr) (req' : Request)
    (h1 : getRequestDef a req = .ok (none, consumes))
    (h2 : readRequestBody req = .ok (body, req')) :
    (verifyRequest env a req).1 =
      (if body.length ≠ 0 then
         some (.new "failed to verify request: definition is not defined but body is not empty")
       else none) := by
  unfold verifyRequest
  rw [h1, h2]
  by_cases h : body.length ≠ 0 <;> simp [h]

/-- Claim C8 witness: an empty body with no declared body parameter verifies
successfully. -/
theorem verifyRequest_no_body_parameter_witness :
    getRequestDef apiW reqW0 = .ok (none, [ "application/json".data]) ∧
    readRequestBody reqW0 = .ok ([], { reqW0 with body := some (.buffer []) }) ∧
    (verifyRequest envTriv apiW reqW0).1 = none :=
  ⟨rfl, rfl,
   verifyRequest_no_body_parameter envTriv apiW reqW0 [ "application/json".data] []
     { reqW0 with body := some (.buffer []) } rfl rfl⟩

/-- After verifyRequest runs on a request whose body is a fresh buffer, the
request's body handle is unchanged: the reinstalled reader holds the same
bytes. -/
theorem verifyRequest_preserves_buffer (env : Env) (a : ApiVerifier)
    (m u : String) (hd : GoStr) (bs : GoStr) :
    (verifyRequest env a ⟨m, u, hd, some (.buffer bs)⟩).2 =
      ⟨m, u, hd, some (.buffer bs)⟩ := by
  unfold verifyRequest
  rcases hg : getRequestDef a ⟨m, u, hd, some (.buffer bs)⟩ with e | ⟨rdef, cons⟩
  · rfl
  · have hr : readRequestBody ⟨m, u, hd, some (.buffer bs)⟩ =
        .ok (bs, ⟨m, u, hd, some (.buffer bs)⟩) := rfl
    rw [hr]
    rcases rdef with _ | p
    · dsimp only
      split <;> rfl
    · dsimp only
      repeat' split
      all_goals rfl

/-- After verifyResponse runs on a response whose body is a fresh buffer, the
response's body handle is unchanged. -/
theorem verifyResponse_preserves_buffer (env : Env) (a : ApiVerifier)
    (req : Request) (sc : Int) (hd : GoStr) (bs : GoStr) :
    (verifyResponse env a ⟨sc, hd, some (.buffer bs)⟩ req).2 =
      ⟨sc, hd, some (.buffer bs)⟩ := by
  unfold verifyResponse
  rcases hg : getResponseDef a req ⟨sc, hd, some (.buffer bs)⟩ with e | ⟨response, prods⟩
  · rfl
  · have hr : readResponseBody ⟨sc, hd, some (.buffer bs)⟩ =
        .ok (bs, ⟨sc, hd, some (.buffer bs)⟩) := rfl
    rw [hr]
    dsimp only
    repeat' split
    all_goals rfl

/-- Claim C5: body replay.  An absent body handle reads as an empty byte
slice; a successful read reinstalls a handle that reads again to the very
same bytes; a failing reader surfaces as a body-read error; and after a
verification call on a request or response whose body is a fresh stream,
reading the body again yields bytes identical to the original stream. -/
theorem body_replay :
    (∀ r : Request, r.body = none → readRequestBody r = .ok ([], r)) ∧
    (∀ (r r' : Request) (b : GoStr), readRequestBody r = .ok (b, r') →
       readRequestBody r' = .ok (b, r')) ∧
    (∀ (r : Request) (e : Err), r.body = some (.failing e) →
       readRequestBody r = .error (.wrap "error reading request body" e)) ∧
    (∀ r : HttpResponse, r.body = none → readResponseBody r = .ok ([], r)) ∧
    (∀ (r r' : HttpResponse) (b : GoStr), readResponseBody r = .ok (b, r') →
       readResponseBody r' = .ok (b, r')) ∧
    (∀ (r : HttpResponse) (e : Err), r.body = some (.failing e) →
       readResponseBody r = .error (.wrap "error reading response body" e)) ∧
    (∀ (env : Env) (a : ApiVerifier) (req : Request) (bs : GoStr),
       req.body = some (.buffer bs) →
       readRequestBody (verifyRequest env a req).2 =
         .ok (bs, (verifyRequest env a req).2)) ∧
    (∀ (env : Env) (a : ApiVerifier) (res : HttpResponse) (req : Request) (bs : GoStr),
       res.body = some (.buffer bs) →
       readResponseBody (verifyResponse env a res req).2 =
         .ok (bs, (verifyResponse env a res req).2)) := by
  refine ⟨?_, ?_, ?_, ?_, ?_, ?_, ?_, ?_⟩
  · intro r h
    obtain ⟨m, u, hd, bd⟩ := r
    have hb : bd = none := h
    subst hb
    rfl
  · intro r r' b h
    obtain ⟨m, u, hd, bd⟩ := r
    rcases bd with _ | st
    · simp [readRequestBody] at h
      obtain ⟨rfl, rfl⟩ := h
      rfl
    · rcases st with bs | _ | e
      · simp [readRequestBody, readAll] at h
        obtain ⟨rfl, rfl⟩ := h
        rfl
      · simp [readRequestBody, readAll] at h
        obtain ⟨rfl, rfl⟩ := h
        rfl
      · simp [readRequestBody, readAll] at h
  · intro r e h
    obtain ⟨m, u, hd, bd⟩ := r
    have hb : bd = some (.failing e) := h
    subst hb
    rfl
  · intro r h
    obtain ⟨sc, hd, bd⟩ := r
    have hb : bd = none := h
    subst hb
    rfl
  · intro r r' b h
    obtain ⟨sc, hd, bd⟩ := r
    rcases bd with _ | st
    · simp [readResponseBody] at h
      obtain ⟨rfl, rfl⟩ := h
      rfl
    · rcases st with bs | _ | e
      · simp [readResponseBody, readAll] at h
        obtain ⟨rfl, rfl⟩ := h
        rfl
      · simp [readResponseBody, readAll] at h
        obtain ⟨rfl, rfl⟩ := h
        rfl
      · simp [readResponseBody, readAll] at h
  · intro r e h
    obtain ⟨sc, hd, bd⟩ := r
    have hb : bd = some (.failing e) := h
    subst hb
    rfl
  · intro env a req bs h
    obtain ⟨m, u, hd, bd⟩ := req
    have hb : bd = some (.buffer bs) := h
    subst hb
    rw [verifyRequest_preserves_buffer]
    rfl
  · intro env a res req bs h
    obtain ⟨sc, hd, bd⟩ := res
    have hb : bd = some (.buffer bs) := h
    subst hb
    rw [verifyResponse_preserves_buffer]
    rfl

/-- Claim C5 witness: the concrete request's body reads again to its
original bytes after verification. -/
theorem body_replay_witness :
    reqW.body = some (.buffer "x".data) ∧
    readRequestBody (verifyRequest envTriv apiW reqW).2 =
      .ok ("x".data, (verifyRequest envTriv apiW reqW).2) :=
  ⟨rfl, body_replay.2.2.2.2.2.2.1 envTriv apiW reqW "x".data rfl⟩

end Revisor
